import Mathlib

/-! # Verification of the PyHDB wire-protocol framing layer

A byte-exact shallow embedding of `pyhdb/protocol/base.py`: the
Message / Segment / Part framing layers, their `struct`-based binary
headers, the part-kind registry, and the reply-segment decoder with its
error dispatch.  Byte streams are modelled as `List Nat` (each element a
byte value), Python `file.read(n)` as `readBytes` (which, like
`BytesIO.read`, returns fewer bytes when the stream is short and the
whole remainder for a negative size), and raising as `Except` with one
constructor per raise site of the source. -/

/-! ## Little-endian integers (the `struct` module) -/

/-- Little-endian base-256 encoding of a natural number into `n` bytes. -/
def encLE : Nat → Nat → List Nat
  | 0, _ => []
  | n + 1, v => v % 256 :: encLE n (v / 256)

/-- Little-endian base-256 decoding of a byte list. -/
def decLE : List Nat → Nat
  | [] => 0
  | b :: bs => b + 256 * decLE bs

/-- `struct.pack` of a signed integer into `n` little-endian bytes
(two's complement). -/
def encInt (n : Nat) (v : Int) : List Nat :=
  encLE n (v % ((2 : Int) ^ (8 * n))).toNat

/-- `struct.unpack` of a signed integer from `n` little-endian bytes. -/
def decInt (n : Nat) (bs : List Nat) : Int :=
  if decLE bs < 2 ^ (8 * n - 1) then (decLE bs : Int)
  else (decLE bs : Int) - 2 ^ (8 * n)

theorem encLE_length (n v : Nat) : (encLE n v).length = n := by
  induction n generalizing v with
  | zero => rfl
  | succ n ih => simp [encLE, ih]

theorem encInt_length (n : Nat) (v : Int) : (encInt n v).length = n := by
  simp [encInt, encLE_length]

theorem decLE_encLE (n v : Nat) : decLE (encLE n v) = v % 2 ^ (8 * n) := by
  induction n generalizing v with
  | zero => simp [encLE, decLE, Nat.mod_one]
  | succ n ih =>
    have hpow : (2 : Nat) ^ (8 * (n + 1)) = 256 * 2 ^ (8 * n) := by
      rw [show 8 * (n + 1) = 8 + 8 * n by ring, pow_add]
      norm_num
    rw [encLE, decLE, ih, hpow, Nat.mod_mul]

theorem decInt_encInt (n : Nat) (hn : 0 < n) (v : Int)
    (h1 : -(2 ^ (8 * n - 1)) ≤ v) (h2 : v < 2 ^ (8 * n - 1)) :
    decInt n (encInt n v) = v := by
  have hsplit : 8 * n = (8 * n - 1) + 1 := by omega
  have hM : (2 : Int) ^ (8 * n) = 2 * 2 ^ (8 * n - 1) := by
    conv_lhs => rw [hsplit]
    rw [pow_succ]; ring
  have hMN : (2 : Nat) ^ (8 * n) = 2 * 2 ^ (8 * n - 1) := by
    conv_lhs => rw [hsplit]
    rw [pow_succ]; ring
  have hMpos : (0 : Int) < 2 ^ (8 * n) := by positivity
  have hemod0 : 0 ≤ v % 2 ^ (8 * n) := Int.emod_nonneg v (ne_of_gt hMpos)
  have hemodlt : v % 2 ^ (8 * n) < 2 ^ (8 * n) := Int.emod_lt_of_pos v hMpos
  have hval : v % 2 ^ (8 * n) = if 0 ≤ v then v else v + 2 ^ (8 * n) := by
    split
    · exact Int.emod_eq_of_lt (by assumption) (by linarith)
    · have hshift : (v + 2 ^ (8 * n)) % 2 ^ (8 * n) = v % 2 ^ (8 * n) := by
        have := Int.add_mul_emod_self_left (a := v) (b := 2 ^ (8 * n)) (c := 1)
        simp only [mul_one] at this
        exact this
      rw [← hshift]
      exact Int.emod_eq_of_lt (by linarith) (by linarith [hM, h2])
  have hdec : decLE (encLE n (v % (2 : Int) ^ (8 * n)).toNat)
      = (v % (2 : Int) ^ (8 * n)).toNat := by
    rw [decLE_encLE]
    apply Nat.mod_eq_of_lt
    have hcast : ((2 ^ (8 * n) : Nat) : Int) = 2 ^ (8 * n) := by push_cast; rfl
    omega
  have hcast1 : ((2 ^ (8 * n - 1) : Nat) : Int) = 2 ^ (8 * n - 1) := by
    push_cast; rfl
  rw [encInt, decInt, hdec]
  split
  · rename_i hlt
    have : ((v % (2 : Int) ^ (8 * n)).toNat : Int) < 2 ^ (8 * n - 1) := by
      rw [← hcast1]; exact_mod_cast hlt
    omega
  · rename_i hge
    have : ¬ ((v % (2 : Int) ^ (8 * n)).toNat : Int) < 2 ^ (8 * n - 1) := by
      rw [← hcast1]; exact_mod_cast hge
    omega

/-! ## List prefix helpers -/

theorem take_append_left {α : Type} (l₁ l₂ : List α) (n : Nat)
    (h : n ≤ l₁.length) : (l₁ ++ l₂).take n = l₁.take n := by
  induction l₁ generalizing n with
  | nil => simp at h; simp [h]
  | cons a l ih =>
    cases n with
    | zero => simp
    | succ n => simp only [List.cons_append, List.take_succ_cons]
                rw [ih n (by simpa using h)]

theorem drop_append_left {α : Type} (l₁ l₂ : List α) (n : Nat)
    (h : n ≤ l₁.length) : (l₁ ++ l₂).drop n = l₁.drop n ++ l₂ := by
  induction l₁ generalizing n with
  | nil => simp at h; simp [h]
  | cons a l ih =>
    cases n with
    | zero => simp
    | succ n => simp only [List.cons_append, List.drop_succ_cons]
                exact ih n (by simpa using h)

theorem take_append_full {α : Type} (l₁ l₂ : List α) (n : Nat)
    (h : l₁.length = n) : (l₁ ++ l₂).take n = l₁ := by
  rw [take_append_left l₁ l₂ n (le_of_eq h.symm), ← h, List.take_length]

theorem drop_append_full {α : Type} (l₁ l₂ : List α) (n : Nat)
    (h : l₁.length = n) : (l₁ ++ l₂).drop n = l₂ := by
  rw [drop_append_left l₁ l₂ n (le_of_eq h.symm), ← h, List.drop_length,
     List.nil_append]

namespace PyHDB

/-! ## Protocol constants (`pyhdb/protocol/base.py`, lines 25-31) -/

def MAX_MESSAGE_SIZE : Int := 2 ^ 17

def MESSAGE_HEADER_SIZE : Int := 32

def MAX_SEGMENT_SIZE : Int := MAX_MESSAGE_SIZE - MESSAGE_HEADER_SIZE

def SEGMENT_HEADER_SIZE : Int := 24

def PART_HEADER_SIZE : Int := 16

/-- Modelled from the spec: the numeric part-kind constants
`ROWSAFFECTED` and `ERROR` are imported from
`pyhdb.protocol.constants.part_kinds`, a module that is not among the
sources; only their identity (and that they are two distinct kind
codes) is used by `pyhdb/protocol/base.py`.  The concrete values chosen
here are the conventional HANA part-kind codes. -/
def part_kinds.ROWSAFFECTED : Int := 12

/-- Modelled from the spec: see `part_kinds.ROWSAFFECTED`. -/
def part_kinds.ERROR : Int := 6

/-! ## Raise sites

One constructor per `raise` statement reachable from the modelled code,
plus `indexError` for Python's implicit `IndexError` on `parts[0]` /
`errors[0]` when the indexed sequence is empty. -/

inductive PyErr where
  | noValidSegmentHeader
  | noValidReplySegmentHeader
  | invalidReplySegment
  | noValidPartHeader
  | unknownPartKind (kind : Int)
  | partKindOutOfRange (kind : Int)
  | rowsAffected (values : List Int)
  | serverError (error : Int)
  | indexError
deriving DecidableEq, Repr

/-- Provenance tag of a part (`Part.source` in the source). -/
inductive Source where
  | client
  | server
deriving DecidableEq, Repr

/-! ## Parts -/

/-- A concrete `Part` subclass: its declared kind code and its
kind-specific payload codec.  `pack_data` maps the instance's
constructor arguments to `(arguments_count, payload bytes)`;
`unpack_data` maps an argument count and the (padded) payload buffer
back to constructor arguments.  The payload semantics of individual
kinds are out of scope, so constructor arguments are abstracted as
`List Int`. -/
structure PartClass where
  kind : Int
  pack_data : List Int → Int × List Nat
  unpack_data : Int → List Nat → List Int

/-- A `Part` instance: its class, the mutable attribute byte (named
`attrib` here because the source's name is a Lean keyword), the
(always zero) `bigargumentcount`, its constructor arguments (the
decoded payload), and its provenance tag. -/
structure Part where
  cls : PartClass
  attrib : Int := 0
  bigargumentcount : Int := 0
  args : List Int
  source : Source := Source.client

/-- `part.kind` delegates to the class attribute. -/
def Part.kind (p : Part) : Int := p.cls.kind

/-- The process-wide `part_mapping` registry: kind code to part class. -/
abbrev Registry := Int → Option PartClass

/-- Dictionary assignment `part_mapping[part_class.kind] = part_class`. -/
def part_mapping_insert (m : Registry) (c : PartClass) : Registry :=
  fun k => if k = c.kind then some c else m k

/-- `PartMeta.__new__` (lines 311-318): register a newly defined part
class.  A falsy (zero) kind is skipped; a kind outside [-128, 127]
raises `InterfaceError`; otherwise the class is stored in the mapping,
silently replacing any earlier class of the same kind. -/
def PartMeta.register (m : Registry) (c : PartClass) : Except PyErr Registry :=
  if c.kind ≠ 0 then
    if ¬(-128 ≤ c.kind ∧ c.kind ≤ 127) then
      Except.error (PyErr.partKindOutOfRange c.kind)
    else
      Except.ok (part_mapping_insert m c)
  else
    Except.ok m

/-- Python `BytesIO.read(n)`: all remaining bytes for a negative `n`,
otherwise at most `n` bytes.  Returns the bytes read and the rest. -/
def readBytes (n : Int) (s : List Nat) : List Nat × List Nat :=
  if n < 0 then (s, []) else (s.take n.toNat, s.drop n.toNat)

/-- Zero-pad a part payload to a multiple of 8 bytes (lines 336-338). -/
def paddedOf (payload : List Nat) : List Nat :=
  if payload.length % 8 ≠ 0 then
    payload ++ List.replicate (8 - payload.length % 8) 0
  else payload

/-- `Part.pack` (lines 331-341): the 16-byte part header
`struct.Struct('<bbhiii')` of kind, attribute, argument count, big
argument count, *unpadded* payload length and remaining segment space,
followed by the zero-padded payload. -/
def Part.pack (p : Part) (remaining_size : Int) : List Nat :=
  let ac := p.cls.pack_data p.args
  encInt 1 p.cls.kind ++ encInt 1 p.attrib ++ encInt 2 ac.1 ++
    encInt 4 p.bigargumentcount ++ encInt 4 (ac.2.length : Int) ++
    encInt 4 remaining_size ++ paddedOf ac.2

/-- The fields of a decoded 16-byte part header, in `'<bbhiii'` order. -/
structure PartHeader where
  kind : Int
  attrib : Int
  argument_count : Int
  bigargumentcount : Int
  payload_length : Int
  remaining_size : Int
deriving DecidableEq, Repr

/-- `struct.unpack('<bbhiii', ...)` on the first 16 bytes of a stream. -/
def parsePartHeaderBytes (s : List Nat) : PartHeader :=
  { kind := decInt 1 (s.take 1)
    attrib := decInt 1 ((s.drop 1).take 1)
    argument_count := decInt 2 ((s.drop 2).take 2)
    bigargumentcount := decInt 4 ((s.drop 4).take 4)
    payload_length := decInt 4 ((s.drop 8).take 4)
    remaining_size := decInt 4 ((s.drop 12).take 4) }

/-- The body of the `while` loop of `Part.unpack_from` (lines 346-388),
iterated a fixed number of times: read a 16-byte header (raising
`InterfaceError` when the stream is too short), read the payload padded
up to a multiple of 8 bytes, look the kind up in the registry (raising
`InterfaceError` on a miss), decode the payload into constructor
arguments, and build the part with its attribute taken from the header
and its source marked `server`. -/
def Part.unpackLoop (reg : Registry) : Nat → List Nat → Except PyErr (List Part)
  | 0, _ => Except.ok []
  | n + 1, s =>
    if (s.take 16).length ≠ 16 then Except.error PyErr.noValidPartHeader
    else
      let ph := parsePartHeaderBytes s
      let s1 := s.drop 16
      let part_payload_size : Int :=
        if ph.payload_length % 8 ≠ 0 then
          ph.payload_length + 8 - ph.payload_length % 8
        else ph.payload_length
      let rd := readBytes part_payload_size s1
      match reg ph.kind with
      | none => Except.error (PyErr.unknownPartKind ph.kind)
      | some c =>
        let part : Part :=
          { cls := c, attrib := ph.attrib, bigargumentcount := 0,
            args := c.unpack_data ph.argument_count rd.1,
            source := Source.server }
        match Part.unpackLoop reg n rd.2 with
        | Except.error e => Except.error e
        | Except.ok parts => Except.ok (part :: parts)

/-- `Part.unpack_from(payload, expected_parts)`: run the loop
`expected_parts` times (a non-positive count yields no parts, like the
Python `while expected_parts > num_parts`). -/
def Part.unpack_from (reg : Registry) (s : List Nat) (expected_parts : Int) :
    Except PyErr (List Part) :=
  Part.unpackLoop reg expected_parts.toNat s

/-! ## Segments: decode side -/

/-- The fields of a decoded 24-byte segment header: the common 13-byte
`struct.Struct('<iihhb')` part followed by the reply variant
`struct.Struct('<bh8B')`.  `function_code` is `segment_header[6]`, the
value the source hands to the `ReplySegment` constructor: the `h` field
at byte offset 14 (index 5 of the combined tuple is the leading `b` of
the variant header). -/
structure SegHeader where
  payload_length : Int
  offset : Int
  part_count : Int
  segment_number : Int
  segment_kind : Int
  function_code : Int
deriving DecidableEq, Repr

/-- Decode the segment-header fields from the first 24 bytes of a
stream. -/
def parseSegHeaderBytes (s : List Nat) : SegHeader :=
  { payload_length := decInt 4 (s.take 4)
    offset := decInt 4 ((s.drop 4).take 4)
    part_count := decInt 2 ((s.drop 8).take 2)
    segment_number := decInt 2 ((s.drop 10).take 2)
    segment_kind := decInt 1 ((s.drop 12).take 1)
    function_code := decInt 2 ((s.drop 14).take 2) }

/-- The header- and payload-reading prelude of one iteration of
`ReplySegment.unpack_from` (lines 244-274): read 13 + 11 header bytes
(raising when the stream is too short), then read the segment payload —
the whole remainder (`read(-1)`) when exactly one segment is expected,
otherwise `payload_length - 24` bytes.  Returns the parsed header, the
payload bytes and the remaining stream. -/
def readSegmentBlock (expected_segments : Int) (s : List Nat) :
    Except PyErr (SegHeader × List Nat × List Nat) :=
  if (s.take 13).length ≠ 13 then Except.error PyErr.noValidSegmentHeader
  else
    let s1 := s.drop 13
    if (s1.take 11).length ≠ 11 then
      Except.error PyErr.noValidReplySegmentHeader
    else
      let s2 := s1.drop 11
      let hdr := parseSegHeaderBytes s
      let segment_payload_size : Int :=
        if expected_segments = 1 then -1
        else hdr.payload_length - SEGMENT_HEADER_SIZE
      let rd := readBytes segment_payload_size s2
      Except.ok (hdr, rd.1, rd.2)

/-- A decoded reply segment: function code plus decoded parts. -/
structure ReplySegment where
  function_code : Int
  parts : List Part

/-- `ReplySegment.unpack` (lines 290-300): build a `ReplySegment` from
an unpacked header and its payload, decoding `header[2]` parts and
taking the function code from `header[6]`. -/
def ReplySegment.unpack (reg : Registry) (header : SegHeader)
    (pl : List Nat) : Except PyErr ReplySegment :=
  match Part.unpack_from reg pl header.part_count with
  | Except.error e => Except.error e
  | Except.ok parts => Except.ok ⟨header.function_code, parts⟩

/-- The `while num_segments < expected_segments` loop of
`ReplySegment.unpack_from` (lines 240-288), with the remaining
iteration count made explicit (`expected_segments` stays fixed because
the single-segment test reads the original argument).  Kind 2 yields
the decoded segment; kind 5 decodes the segment and inspects its first
part — kind `ROWSAFFECTED` raises a rows-affected condition carrying
the part's values, kind `ERROR` raises the part's first error value,
and any other first-part kind falls through both `if` arms so the
segment is dropped and the loop continues; any other segment kind
raises "Invalid reply segment". -/
def ReplySegment.unpackLoop (reg : Registry) (expected_segments : Int) :
    Nat → List Nat → Except PyErr (List ReplySegment × List Nat)
  | 0, s => Except.ok ([], s)
  | n + 1, s =>
    match readSegmentBlock expected_segments s with
    | Except.error e => Except.error e
    | Except.ok (hdr, pl, rest) =>
      if hdr.segment_kind = 2 then
        match ReplySegment.unpack reg hdr pl with
        | Except.error e => Except.error e
        | Except.ok seg =>
          match ReplySegment.unpackLoop reg expected_segments n rest with
          | Except.error e => Except.error e
          | Except.ok (segs, r) => Except.ok (seg :: segs, r)
      else if hdr.segment_kind = 5 then
        match ReplySegment.unpack reg hdr pl with
        | Except.error e => Except.error e
        | Except.ok err =>
          match err.parts with
          | [] => Except.error PyErr.indexError
          | p0 :: _ =>
            if p0.kind = part_kinds.ROWSAFFECTED then
              Except.error (PyErr.rowsAffected p0.args)
            else if p0.kind = part_kinds.ERROR then
              match p0.args with
              | [] => Except.error PyErr.indexError
              | e :: _ => Except.error (PyErr.serverError e)
            else ReplySegment.unpackLoop reg expected_segments n rest
      else Except.error PyErr.invalidReplySegment

/-- `ReplySegment.unpack_from(payload, expected_segments)`: run the
loop `expected_segments` times over the message body, returning the
yielded segments and whatever trailing bytes were never read. -/
def ReplySegment.unpack_from (reg : Registry) (s : List Nat)
    (expected_segments : Int) : Except PyErr (List ReplySegment × List Nat) :=
  ReplySegment.unpackLoop reg expected_segments expected_segments.toNat s

/-! ## Segments: encode side -/

/-- `BaseSegment.build_payload` (lines 160-167): pack every part in
order, handing each the space remaining in the segment and shrinking it
by the bytes just written. -/
def BaseSegment.build_payload : List Part → Int → List Nat
  | [], _ => []
  | p :: ps, remaining_size =>
    let part_payload := p.pack remaining_size
    part_payload ++
      BaseSegment.build_payload ps (remaining_size - part_payload.length)

/-- `BaseSegment.pack` (lines 169-194): reserve the header region,
write the parts (starting from `MAX_SEGMENT_SIZE - SEGMENT_HEADER_SIZE`
of remaining space), then backpatch the header.  The written
`payload_length` is `payload.tell() - payload_pos`: the parts' bytes
*plus* the skipped header region (13 bytes of common header plus the
variant header). -/
def BaseSegment.pack (segment_kind : Int) (additional_header : List Nat)
    (parts : List Part) : List Nat :=
  let partsBytes :=
    BaseSegment.build_payload parts (MAX_SEGMENT_SIZE - SEGMENT_HEADER_SIZE)
  let payload_length : Int :=
    ((13 + additional_header.length + partsBytes.length : Nat) : Int)
  encInt 4 payload_length ++ encInt 4 0 ++ encInt 2 (parts.length : Int) ++
    encInt 2 1 ++ encInt 1 segment_kind ++ additional_header ++ partsBytes

/-- `RequestSegment.pack_additional_header` (lines 218-223):
`struct.Struct('bbb8x')` of message type, the commit flag cast from a
boolean, and command options fixed at 0, padded with 8 zero bytes. -/
def RequestSegment.pack_additional_header (message_type : Int)
    (commit : Bool) : List Nat :=
  encInt 1 message_type ++ encInt 1 (if commit then 1 else 0) ++
    encInt 1 0 ++ List.replicate 8 0

/-- `RequestSegment.pack`: `BaseSegment.pack` with `segment_kind = 1`
and the request variant header. -/
def RequestSegment.pack (message_type : Int) (commit : Bool)
    (parts : List Part) : List Nat :=
  BaseSegment.pack 1 (RequestSegment.pack_additional_header message_type commit)
    parts

/-! ## Messages -/

/-- The connection facts `Message.pack` consumes: `session_id`, the
value `get_next_packet_count()` returns for this message, and the
`autocommit` flag passed to every segment as `commit`. -/
structure Connection where
  session_id : Int
  packet_count : Int
  autocommit : Bool

/-- An outbound segment held by a message (outbound messages carry
request segments; the reply variant defines no
`pack_additional_header`). -/
inductive Seg where
  | request (message_type : Int) (parts : List Part)

/-- Pack one outbound segment with the message's commit flag. -/
def Seg.pack (commit : Bool) : Seg → List Nat
  | Seg.request mt parts => RequestSegment.pack mt commit parts

/-- `Message.build_payload` (lines 74-77): pack every segment in order,
each with `commit = connection.autocommit`. -/
def Message.build_payload (commit : Bool) (segments : List Seg) : List Nat :=
  (segments.map (Seg.pack commit)).flatten

/-- `Message.pack` (lines 79-106): reserve 32 bytes, write the
segments, then backpatch the `struct.Struct('qiIIhb9B')` header of
session id, packet count, `packet_length` (bytes written minus the
header size), `total_space = MAX_MESSAGE_SIZE - MESSAGE_HEADER_SIZE`,
segment count, and 10 reserved zero bytes. -/
def Message.pack (conn : Connection) (segments : List Seg) : List Nat :=
  let body := Message.build_payload conn.autocommit segments
  encInt 8 conn.session_id ++ encInt 4 conn.packet_count ++
    encInt 4 (body.length : Int) ++
    encInt 4 (MAX_MESSAGE_SIZE - MESSAGE_HEADER_SIZE) ++
    encInt 2 (segments.length : Int) ++ List.replicate 10 0 ++ body

/-! ## Helper lemmas -/

theorem parseSegHeaderBytes_append (b rest : List Nat) (h : 24 ≤ b.length) :
    parseSegHeaderBytes (b ++ rest) = parseSegHeaderBytes b := by
  have hd : ∀ k : Nat, k ≤ 24 → (b ++ rest).drop k = b.drop k ++ rest := by
    intro k hk
    exact drop_append_left b rest k (by omega)
  have ht : ∀ k j : Nat, k + j ≤ 24 →
      ((b ++ rest).drop k).take j = (b.drop k).take j := by
    intro k j hkj
    rw [hd k (by omega)]
    exact take_append_left (b.drop k) rest j (by rw [List.length_drop]; omega)
  have ht0 : (b ++ rest).take 4 = b.take 4 := take_append_left b rest 4 (by omega)
  simp only [parseSegHeaderBytes, ht0, ht 4 4 (by omega), ht 8 2 (by omega),
    ht 10 2 (by omega), ht 12 1 (by omega), ht 14 2 (by omega)]

theorem readSegmentBlock_exact (expected : Int) (hne : expected ≠ 1)
    (b rest : List Nat) (h24 : 24 ≤ b.length)
    (hdecl : decInt 4 (b.take 4) = (b.length : Int)) :
    readSegmentBlock expected (b ++ rest)
      = Except.ok (parseSegHeaderBytes b, b.drop 24, rest) := by
  have h13 : ¬(((b ++ rest).take 13).length ≠ 13) := by
    rw [List.length_take, List.length_append]; omega
  have h11 : ¬((((b ++ rest).drop 13).take 11).length ≠ 11) := by
    rw [List.length_take, List.length_drop, List.length_append]; omega
  have hdrop24 : ((b ++ rest).drop 13).drop 11 = b.drop 24 ++ rest := by
    rw [List.drop_drop]
    exact drop_append_left b rest 24 h24
  have hpll : (parseSegHeaderBytes b).payload_length = (b.length : Int) := by
    simp only [parseSegHeaderBytes]
    exact hdecl
  have hlen24 : (b.drop 24).length = b.length - 24 := by
    rw [List.length_drop]
  simp only [readSegmentBlock, h13, h11, if_false, hdrop24,
    if_neg hne, SEGMENT_HEADER_SIZE, readBytes, parseSegHeaderBytes_append b rest h24,
    hpll]
  have hsz : ¬((b.length : Int) - 24 < 0) := by omega
  have htn : ((b.length : Int) - 24).toNat = b.length - 24 := by omega
  simp only [if_neg hsz, htn]
  rw [take_append_full (b.drop 24) rest (b.length - 24) hlen24,
    drop_append_full (b.drop 24) rest (b.length - 24) hlen24]

theorem readSegmentBlock_single (s : List Nat) (h24 : 24 ≤ s.length) :
    readSegmentBlock 1 s = Except.ok (parseSegHeaderBytes s, s.drop 24, []) := by
  have h13 : ¬((s.take 13).length ≠ 13) := by
    rw [List.length_take]; omega
  have h11 : ¬(((s.drop 13).take 11).length ≠ 11) := by
    rw [List.length_take, List.length_drop]; omega
  have hdrop24 : (s.drop 13).drop 11 = s.drop 24 := by
    rw [List.drop_drop]
  simp only [readSegmentBlock, h13, h11, if_false, hdrop24, if_pos rfl,
    readBytes]
  norm_num

theorem Part.pack_split16 (p : Part) (rem : Int) :
    p.pack rem
      = (encInt 1 p.cls.kind ++ encInt 1 p.attrib ++
         encInt 2 (p.cls.pack_data p.args).1 ++ encInt 4 p.bigargumentcount ++
         encInt 4 ((p.cls.pack_data p.args).2.length : Int) ++ encInt 4 rem) ++
        paddedOf (p.cls.pack_data p.args).2 := by
  simp [Part.pack, List.append_assoc]

theorem Part.pack_header_length (p : Part) (rem : Int) :
    (encInt 1 p.cls.kind ++ encInt 1 p.attrib ++
      encInt 2 (p.cls.pack_data p.args).1 ++ encInt 4 p.bigargumentcount ++
      encInt 4 ((p.cls.pack_data p.args).2.length : Int) ++
      encInt 4 rem).length = 16 := by
  simp [List.length_append, encInt_length]

theorem Part.pack_drop16 (p : Part) (rem : Int) :
    (p.pack rem).drop 16 = paddedOf (p.cls.pack_data p.args).2 := by
  rw [Part.pack_split16]
  exact drop_append_full _ _ 16 (Part.pack_header_length p rem)

theorem paddedOf_length_mod (pl : List Nat) : (paddedOf pl).length % 8 = 0 := by
  simp only [paddedOf]
  split
  · rename_i h
    rw [List.length_append, List.length_replicate]
    omega
  · rename_i h
    omega

theorem paddedOf_take (pl : List Nat) : (paddedOf pl).take pl.length = pl := by
  simp only [paddedOf]
  split
  · rw [take_append_left pl _ pl.length le_rfl, List.take_length]
  · exact List.take_length pl

theorem paddedOf_drop (pl : List Nat) :
    (paddedOf pl).drop pl.length
      = List.replicate ((paddedOf pl).length - pl.length) 0 := by
  simp only [paddedOf]
  split
  · rw [drop_append_full pl _ pl.length rfl, List.length_append,
      List.length_replicate]
    congr 1
    omega
  · rw [List.drop_length]
    simp

theorem BaseSegment.pack_split_header (sk : Int) (ah : List Nat) (parts : List Part) :
    BaseSegment.pack sk ah parts
      = (encInt 4 (((13 + ah.length +
            (BaseSegment.build_payload parts
              (MAX_SEGMENT_SIZE - SEGMENT_HEADER_SIZE)).length : Nat) : Int)) ++
         encInt 4 0 ++ encInt 2 (parts.length : Int) ++ encInt 2 1 ++
         encInt 1 sk ++ ah) ++
        BaseSegment.build_payload parts
          (MAX_SEGMENT_SIZE - SEGMENT_HEADER_SIZE) := by
  simp [BaseSegment.pack, List.append_assoc]

/-! ## Concrete part classes, parts and registries used as witnesses -/

/-- A demo part class (kind 3) whose payload is its arguments as bytes. -/
def byteCls : PartClass :=
  { kind := 3
    pack_data := fun args => ((args.length : Int), args.map Int.toNat)
    unpack_data := fun cnt pl => (pl.take cnt.toNat).map (fun b => (b : Int)) }

/-- A demo part class of kind 5: the part kind of the worked example. -/
def kind5Cls : PartClass :=
  { kind := 5
    pack_data := fun args => ((args.length : Int), args.map Int.toNat)
    unpack_data := fun cnt pl => (pl.take cnt.toNat).map (fun b => (b : Int)) }

/-- A demo rows-affected part class: decodes to the values `[7]`. -/
def rowsAffectedCls : PartClass :=
  { kind := part_kinds.ROWSAFFECTED
    pack_data := fun _ => (0, [])
    unpack_data := fun _ _ => [7] }

/-- A demo error part class: decodes to the single error value `42`. -/
def errorCls : PartClass :=
  { kind := part_kinds.ERROR
    pack_data := fun _ => (0, [])
    unpack_data := fun _ _ => [42] }

/-- A demo registry holding the classes above. -/
def demoReg : Registry := fun k =>
  if k = 3 then some byteCls
  else if k = 5 then some kind5Cls
  else if k = part_kinds.ROWSAFFECTED then some rowsAffectedCls
  else if k = part_kinds.ERROR then some errorCls
  else none

/-- The worked example's part: kind 5 with a 5-byte payload. -/
def examplePart : Part := { cls := kind5Cls, args := [1, 2, 3, 4, 5] }

/-! ## Claims -/

/-- C1 (counterexample): the claim says the `payload_length` written
into a segment header equals the bytes written by the parts *excluding*
the 24-byte segment header, and in particular that the worked example
(one kind-5 part with a 5-byte payload) declares `payload_length = 24`.
In `BaseSegment.pack` the written value is `payload.tell() -
payload_pos`, which counts the skipped header region too: the example's
parts do write exactly 24 bytes, but the declared field is 48. -/
theorem C1_payload_length_counterexample :
    decInt 4 ((RequestSegment.pack 3 true [examplePart]).take 4) = 48 ∧
    decInt 4 ((RequestSegment.pack 3 true [examplePart]).take 4) ≠ 24 ∧
    ((RequestSegment.pack 3 true [examplePart]).drop 24).length = 24 := by
  decide

/-- C1 (amended): for every segment encoded by `RequestSegment.pack`,
the `payload_length` field written into the segment header equals the
exact number of bytes written by the segment's parts *plus* the 24-byte
segment header; the bytes after the header are exactly the parts'
bytes, and the segment's total size is 24 plus the parts' bytes.  (The
range hypothesis keeps the int32 field from wrapping.) -/
theorem C1_payload_length_includes_header (mt : Int) (commit : Bool)
    (parts : List Part)
    (hlen : (BaseSegment.build_payload parts
        (MAX_SEGMENT_SIZE - SEGMENT_HEADER_SIZE)).length + 24 < 2 ^ 31) :
    decInt 4 ((RequestSegment.pack mt commit parts).take 4)
      = 24 + ((BaseSegment.build_payload parts
          (MAX_SEGMENT_SIZE - SEGMENT_HEADER_SIZE)).length : Int) ∧
    (RequestSegment.pack mt commit parts).drop 24
      = BaseSegment.build_payload parts
          (MAX_SEGMENT_SIZE - SEGMENT_HEADER_SIZE) ∧
    (RequestSegment.pack mt commit parts).length
      = 24 + (BaseSegment.build_payload parts
          (MAX_SEGMENT_SIZE - SEGMENT_HEADER_SIZE)).length := by
  have hah : (RequestSegment.pack_additional_header mt commit).length = 11 := by
    simp [RequestSegment.pack_additional_header, List.length_append,
      encInt_length]
  have hunfold : RequestSegment.pack mt commit parts
      = (encInt 4 (((13 + 11 + (BaseSegment.build_payload parts
            (MAX_SEGMENT_SIZE - SEGMENT_HEADER_SIZE)).length : Nat) : Int)) ++
         encInt 4 0 ++ encInt 2 (parts.length : Int) ++ encInt 2 1 ++
         encInt 1 1 ++ RequestSegment.pack_additional_header mt commit) ++
        BaseSegment.build_payload parts
          (MAX_SEGMENT_SIZE - SEGMENT_HEADER_SIZE) := by
    rw [RequestSegment.pack, BaseSegment.pack_split_header, hah]
  refine ⟨?_, ?_, ?_⟩
  · rw [hunfold]
    have hassoc : (encInt 4 (((13 + 11 + (BaseSegment.build_payload parts
          (MAX_SEGMENT_SIZE - SEGMENT_HEADER_SIZE)).length : Nat) : Int)) ++
        encInt 4 0 ++ encInt 2 (parts.length : Int) ++ encInt 2 1 ++
        encInt 1 1 ++ RequestSegment.pack_additional_header mt commit) ++
        BaseSegment.build_payload parts
          (MAX_SEGMENT_SIZE - SEGMENT_HEADER_SIZE)
        = encInt 4 (((13 + 11 + (BaseSegment.build_payload parts
            (MAX_SEGMENT_SIZE - SEGMENT_HEADER_SIZE)).length : Nat) : Int)) ++
          (encInt 4 0 ++ encInt 2 (parts.length : Int) ++ encInt 2 1 ++
           encInt 1 1 ++ RequestSegment.pack_additional_header mt commit ++
           BaseSegment.build_payload parts
             (MAX_SEGMENT_SIZE - SEGMENT_HEADER_SIZE)) := by
      simp [List.append_assoc]
    rw [hassoc, take_append_full _ _ 4 (encInt_length 4 _),
      decInt_encInt 4 (by norm_num) _
        (le_trans (by norm_num) (Int.natCast_nonneg _)) (by push_cast; omega)]
    push_cast
    ring
  · rw [hunfold]
    refine drop_append_full _ _ 24 ?_
    simp [List.length_append, encInt_length, hah]
  · rw [hunfold]
    simp [List.length_append, encInt_length, hah]
    omega

/-- C1 (witness): the amended statement evaluated on the worked
example — the parts write 24 bytes and the declared field is 48. -/
theorem C1_payload_length_includes_header_witness :
    ((BaseSegment.build_payload [examplePart]
        (MAX_SEGMENT_SIZE - SEGMENT_HEADER_SIZE)).length + 24 < 2 ^ 31) ∧
    (decInt 4 ((RequestSegment.pack 3 true [examplePart]).take 4)
      = 24 + ((BaseSegment.build_payload [examplePart]
          (MAX_SEGMENT_SIZE - SEGMENT_HEADER_SIZE)).length : Int) ∧
     (RequestSegment.pack 3 true [examplePart]).drop 24
      = BaseSegment.build_payload [examplePart]
          (MAX_SEGMENT_SIZE - SEGMENT_HEADER_SIZE) ∧
     (RequestSegment.pack 3 true [examplePart]).length
      = 24 + (BaseSegment.build_payload [examplePart]
          (MAX_SEGMENT_SIZE - SEGMENT_HEADER_SIZE)).length) :=
  ⟨by decide, C1_payload_length_includes_header 3 true [examplePart] (by decide)⟩

/-- C2 (confirmed): when the declared segment count is 1,
`ReplySegment.unpack_from` reads the whole remainder of the stream as
the single segment's payload (`read(-1)`), ignoring the header's
declared `payload_length` entirely: for *every* stream with at least
the 24 header bytes the payload is `s.drop 24` and nothing is left
over, and when the segment is a reply whose parts decode, the yielded
segment is built from that whole remainder. -/
theorem C2_single_segment_reads_remainder (reg : Registry) (s : List Nat)
    (h24 : 24 ≤ s.length) :
    readSegmentBlock 1 s = Except.ok (parseSegHeaderBytes s, s.drop 24, []) ∧
    ((parseSegHeaderBytes s).segment_kind = 2 →
      ∀ parts, Part.unpack_from reg (s.drop 24)
          (parseSegHeaderBytes s).part_count = Except.ok parts →
        ReplySegment.unpack_from reg s 1
          = Except.ok ([⟨(parseSegHeaderBytes s).function_code, parts⟩], [])) := by
  refine ⟨readSegmentBlock_single s h24, fun hk parts hparts => ?_⟩
  have h1 : (1 : Int).toNat = 1 := rfl
  rw [ReplySegment.unpack_from, h1]
  simp only [ReplySegment.unpackLoop, readSegmentBlock_single s h24,
    ReplySegment.unpack, hparts, if_pos hk]

/-- C2 (witness): a 30-byte stream whose header lies
(`payload_length = 9999`) still has its trailing 6 bytes—not
`9999 - 24`—consumed as the payload, and decodes to one reply
segment with nothing left over. -/
def c2stream : List Nat :=
  encInt 4 9999 ++ encInt 4 0 ++ encInt 2 0 ++ encInt 2 1 ++ encInt 1 2 ++
    (encInt 1 7 ++ encInt 2 77 ++ List.replicate 8 0) ++ [9, 9, 9, 9, 9, 9]

theorem C2_single_segment_reads_remainder_witness :
    24 ≤ c2stream.length ∧
    readSegmentBlock 1 c2stream
      = Except.ok (parseSegHeaderBytes c2stream, c2stream.drop 24, []) ∧
    ReplySegment.unpack_from demoReg c2stream 1
      = Except.ok ([⟨(parseSegHeaderBytes c2stream).function_code, []⟩], []) :=
  ⟨by decide, (C2_single_segment_reads_remainder demoReg c2stream (by decide)).1,
   (C2_single_segment_reads_remainder demoReg c2stream (by decide)).2
     (by decide) [] rfl⟩

/-- A well-formed reply-segment block of a multi-segment message body:
it has at least the 24 header bytes, its declared `payload_length`
equals its own byte count (the declared length includes the header, cf.
C1), it is of segment kind 2, and its contained parts decode. -/
def GoodReplyBlock (reg : Registry) (b : List Nat) : Prop :=
  24 ≤ b.length ∧
  (parseSegHeaderBytes b).payload_length = (b.length : Int) ∧
  (parseSegHeaderBytes b).segment_kind = 2 ∧
  ∃ parts, Part.unpack_from reg (b.drop 24)
    (parseSegHeaderBytes b).part_count = Except.ok parts

theorem unpackLoop_goodBlocks (reg : Registry) (expected : Int)
    (hne : expected ≠ 1) (blocks : List (List Nat)) :
    (∀ b ∈ blocks, GoodReplyBlock reg b) →
    ∃ segs, ReplySegment.unpackLoop reg expected blocks.length blocks.flatten
      = Except.ok (segs, []) := by
  induction blocks with
  | nil => exact fun _ => ⟨[], rfl⟩
  | cons b bs ih =>
    intro hgood
    obtain ⟨h24, hdecl, hkind, parts, hparts⟩ := hgood b (by simp)
    obtain ⟨segs, hrec⟩ := ih (fun x hx => hgood x (by simp [hx]))
    refine ⟨⟨(parseSegHeaderBytes b).function_code, parts⟩ :: segs, ?_⟩
    show ReplySegment.unpackLoop reg expected (bs.length + 1) (b ++ bs.flatten)
      = _
    simp only [ReplySegment.unpackLoop,
      readSegmentBlock_exact expected hne b bs.flatten h24 hdecl,
      ReplySegment.unpack, hparts, if_pos hkind, hrec]

/-- C3 (confirmed): for a declared segment count of 2 or more, each
segment block consumes exactly its declared `payload_length - 24` bytes
of payload after its 24 header bytes (leaving the following segments
untouched), and over a body made of well-formed blocks — one per
declared segment, each declaring its own exact length — decoding
consumes the entire message body, leaving nothing over. -/
theorem C3_multi_segment_exact (reg : Registry) (expected : Int)
    (h2 : 2 ≤ expected) (blocks : List (List Nat))
    (hcount : blocks.length = expected.toNat)
    (hgood : ∀ b ∈ blocks, GoodReplyBlock reg b) :
    (∀ b rest : List Nat, 24 ≤ b.length →
       (parseSegHeaderBytes b).payload_length = (b.length : Int) →
       readSegmentBlock expected (b ++ rest)
         = Except.ok (parseSegHeaderBytes b, b.drop 24, rest)) ∧
    ∃ segs, ReplySegment.unpack_from reg blocks.flatten expected
      = Except.ok (segs, []) := by
  have hne : expected ≠ 1 := by omega
  refine ⟨fun b rest hb hd => readSegmentBlock_exact expected hne b rest hb hd,
    ?_⟩
  rw [ReplySegment.unpack_from, ← hcount]
  exact unpackLoop_goodBlocks reg expected hne blocks hgood

/-- C3 (witness): a body of two 24-byte reply blocks, each declaring
`payload_length = 24` and zero parts, decodes completely; and a block
declaring its exact length hands exactly the trailing bytes to the next
segment. -/
def c3block : List Nat :=
  encInt 4 24 ++ encInt 4 0 ++ encInt 2 0 ++ encInt 2 1 ++ encInt 1 2 ++
    (encInt 1 0 ++ encInt 2 5 ++ List.replicate 8 0)

theorem C3_multi_segment_exact_witness :
    (2 ≤ (2 : Int)) ∧ ([c3block, c3block].length = (2 : Int).toNat) ∧
    GoodReplyBlock demoReg c3block ∧
    (∃ segs, ReplySegment.unpack_from demoReg ([c3block, c3block]).flatten 2
      = Except.ok (segs, [])) ∧
    readSegmentBlock 2 (c3block ++ [1, 2, 3])
      = Except.ok (parseSegHeaderBytes c3block, c3block.drop 24, [1, 2, 3]) := by
  have hgb : GoodReplyBlock demoReg c3block :=
    ⟨by decide, by decide, by decide, ⟨[], rfl⟩⟩
  have hg : ∀ b ∈ [c3block, c3block], GoodReplyBlock demoReg b := by
    intro b hb
    have hb' : b = c3block ∨ b = c3block := by simpa using hb
    rcases hb' with h | h <;> exact h ▸ hgb
  exact ⟨by norm_num, rfl, hgb,
    (C3_multi_segment_exact demoReg 2 (by norm_num) [c3block, c3block] rfl
      hg).2,
    (C3_multi_segment_exact demoReg 2 (by norm_num) [c3block, c3block] rfl
      hg).1 c3block [1, 2, 3] (by decide) (by decide)⟩

/-- C4 (confirmed): for every part encoded by `Part.pack`, the bytes
after the 16-byte header have a length that is a multiple of 8, they
are the unpadded payload followed by zero bytes, and the
`payload_length` field of the header (bytes 8-11) is the *unpadded*
payload length. -/
theorem C4_padding_invariant (p : Part) (rem : Int)
    (hlen : (p.cls.pack_data p.args).2.length < 2 ^ 31) :
    ((p.pack rem).drop 16).length % 8 = 0 ∧
    ((p.pack rem).drop 16).take (p.cls.pack_data p.args).2.length
      = (p.cls.pack_data p.args).2 ∧
    ((p.pack rem).drop 16).drop (p.cls.pack_data p.args).2.length
      = List.replicate (((p.pack rem).drop 16).length
          - (p.cls.pack_data p.args).2.length) 0 ∧
    decInt 4 (((p.pack rem).drop 8).take 4)
      = ((p.cls.pack_data p.args).2.length : Int) := by
  refine ⟨?_, ?_, ?_, ?_⟩
  · rw [Part.pack_drop16]
    exact paddedOf_length_mod _
  · rw [Part.pack_drop16]
    exact paddedOf_take _
  · rw [Part.pack_drop16]
    exact paddedOf_drop _
  · have hre : p.pack rem
        = (encInt 1 p.cls.kind ++ encInt 1 p.attrib ++
           encInt 2 (p.cls.pack_data p.args).1 ++
           encInt 4 p.bigargumentcount) ++
          (encInt 4 ((p.cls.pack_data p.args).2.length : Int) ++
           (encInt 4 rem ++ paddedOf (p.cls.pack_data p.args).2)) := by
      rw [Part.pack_split16]
      simp [List.append_assoc]
    rw [hre, drop_append_full _ _ 8 (by simp [List.length_append, encInt_length]),
      take_append_full _ _ 4 (encInt_length 4 _),
      decInt_encInt 4 (by norm_num) _
        (le_trans (by norm_num) (Int.natCast_nonneg _)) (by push_cast; omega)]

/-- C4 (witness): the padding invariant evaluated on the example part
(5-byte payload, header field 5, transmitted payload 8 bytes). -/
theorem C4_padding_invariant_witness :
    ((examplePart.cls.pack_data examplePart.args).2.length < 2 ^ 31) ∧
    (((examplePart.pack 13).drop 16).length % 8 = 0 ∧
     ((examplePart.pack 13).drop 16).take
        (examplePart.cls.pack_data examplePart.args).2.length
       = (examplePart.cls.pack_data examplePart.args).2 ∧
     ((examplePart.pack 13).drop 16).drop
        (examplePart.cls.pack_data examplePart.args).2.length
       = List.replicate (((examplePart.pack 13).drop 16).length
           - (examplePart.cls.pack_data examplePart.args).2.length) 0 ∧
     decInt 4 (((examplePart.pack 13).drop 8).take 4)
       = ((examplePart.cls.pack_data examplePart.args).2.length : Int)) :=
  ⟨by decide, C4_padding_invariant examplePart 13 (by decide)⟩

theorem take_encInt_append (n : Nat) (v : Int) (t : List Nat) :
    (encInt n v ++ t).take n = encInt n v :=
  take_append_full _ _ n (encInt_length n v)

theorem drop_encInt_append (n : Nat) (v : Int) (t : List Nat) :
    (encInt n v ++ t).drop n = t :=
  drop_append_full _ _ n (encInt_length n v)

theorem readBytes_all (s : List Nat) (n : Int) (h : n = (s.length : Int)) :
    readBytes n s = (s, []) := by
  subst h
  have h0 : ¬((s.length : Int) < 0) := by omega
  have ht : ((s.length : Int)).toNat = s.length := by omega
  rw [readBytes, if_neg h0, ht, List.take_length, List.drop_length]

theorem paddedOf_length (pl : List Nat) :
    (paddedOf pl).length
      = if pl.length % 8 ≠ 0 then pl.length + (8 - pl.length % 8)
        else pl.length := by
  simp only [paddedOf]
  split
  · simp [List.length_append]
  · simp

theorem parsePartHeader_pack (p : Part) (rem : Int)
    (hkind1 : -128 ≤ p.cls.kind) (hkind2 : p.cls.kind < 128)
    (hattr1 : -128 ≤ p.attrib) (hattr2 : p.attrib < 128)
    (hcnt1 : -(2 ^ 15) ≤ (p.cls.pack_data p.args).1)
    (hcnt2 : (p.cls.pack_data p.args).1 < 2 ^ 15)
    (hbig1 : -(2 ^ 31) ≤ p.bigargumentcount)
    (hbig2 : p.bigargumentcount < 2 ^ 31)
    (hrem1 : -(2 ^ 31) ≤ rem) (hrem2 : rem < 2 ^ 31)
    (hlen : (p.cls.pack_data p.args).2.length < 2 ^ 31) :
    parsePartHeaderBytes (p.pack rem)
      = { kind := p.cls.kind, attrib := p.attrib,
          argument_count := (p.cls.pack_data p.args).1,
          bigargumentcount := p.bigargumentcount,
          payload_length := ((p.cls.pack_data p.args).2.length : Int),
          remaining_size := rem } := by
  have hpk : p.pack rem
      = encInt 1 p.cls.kind ++
        (encInt 1 p.attrib ++
         (encInt 2 (p.cls.pack_data p.args).1 ++
          (encInt 4 p.bigargumentcount ++
           (encInt 4 ((p.cls.pack_data p.args).2.length : Int) ++
            (encInt 4 rem ++ paddedOf (p.cls.pack_data p.args).2))))) := by
    rw [Part.pack_split16]
    simp [List.append_assoc]
  have e1 : (p.pack rem).drop 1
      = encInt 1 p.attrib ++
        (encInt 2 (p.cls.pack_data p.args).1 ++
         (encInt 4 p.bigargumentcount ++
          (encInt 4 ((p.cls.pack_data p.args).2.length : Int) ++
           (encInt 4 rem ++ paddedOf (p.cls.pack_data p.args).2)))) := by
    rw [hpk]
    exact drop_append_full _ _ 1 (encInt_length 1 _)
  have e2 : (p.pack rem).drop 2
      = encInt 2 (p.cls.pack_data p.args).1 ++
        (encInt 4 p.bigargumentcount ++
         (encInt 4 ((p.cls.pack_data p.args).2.length : Int) ++
          (encInt 4 rem ++ paddedOf (p.cls.pack_data p.args).2))) := by
    have hsplit : (p.pack rem).drop 2 = ((p.pack rem).drop 1).drop 1 := by
      rw [List.drop_drop]
    rw [hsplit, e1, drop_append_full _ _ 1 (encInt_length 1 _)]
  have e4 : (p.pack rem).drop 4
      = encInt 4 p.bigargumentcount ++
        (encInt 4 ((p.cls.pack_data p.args).2.length : Int) ++
         (encInt 4 rem ++ paddedOf (p.cls.pack_data p.args).2)) := by
    have hsplit : (p.pack rem).drop 4 = ((p.pack rem).drop 2).drop 2 := by
      rw [List.drop_drop]
    rw [hsplit, e2, drop_append_full _ _ 2 (encInt_length 2 _)]
  have e8 : (p.pack rem).drop 8
      = encInt 4 ((p.cls.pack_data p.args).2.length : Int) ++
        (encInt 4 rem ++ paddedOf (p.cls.pack_data p.args).2) := by
    have hsplit : (p.pack rem).drop 8 = ((p.pack rem).drop 4).drop 4 := by
      rw [List.drop_drop]
    rw [hsplit, e4, drop_append_full _ _ 4 (encInt_length 4 _)]
  have e12 : (p.pack rem).drop 12
      = encInt 4 rem ++ paddedOf (p.cls.pack_data p.args).2 := by
    have hsplit : (p.pack rem).drop 12 = ((p.pack rem).drop 8).drop 4 := by
      rw [List.drop_drop]
    rw [hsplit, e8, drop_append_full _ _ 4 (encInt_length 4 _)]
  simp only [parsePartHeaderBytes, e1, e2, e4, e8, e12]
  simp only [hpk, take_encInt_append]
  rw [decInt_encInt 1 (by norm_num) _ (by norm_num; omega) (by norm_num; omega),
    decInt_encInt 1 (by norm_num) _ (by norm_num; omega) (by norm_num; omega),
    decInt_encInt 2 (by norm_num) _ (by norm_num; omega) (by norm_num; omega),
    decInt_encInt 4 (by norm_num) _ (by norm_num; omega) (by norm_num; omega),
    decInt_encInt 4 (by norm_num) _
      (le_trans (by norm_num) (Int.natCast_nonneg _)) (by push_cast; omega),
    decInt_encInt 4 (by norm_num) _ (by norm_num; omega) (by norm_num; omega)]

/-- C5 (confirmed): packing a part whose kind is registered (to its own
class) and whose kind-specific codec inverts on this part's data, then
unpacking the produced bytes with `expected_parts = 1`, yields exactly
one part with the same kind (class) and the same decoded payload
(constructor arguments), now marked as coming from the server.  The
range hypotheses say the header fields fit their wire widths (Python's
`struct.pack` would raise otherwise). -/
theorem C5_part_roundtrip (reg : Registry) (p : Part) (rem : Int)
    (hreg : reg p.cls.kind = some p.cls)
    (hkind1 : -128 ≤ p.cls.kind) (hkind2 : p.cls.kind < 128)
    (hattr1 : -128 ≤ p.attrib) (hattr2 : p.attrib < 128)
    (hcnt1 : -(2 ^ 15) ≤ (p.cls.pack_data p.args).1)
    (hcnt2 : (p.cls.pack_data p.args).1 < 2 ^ 15)
    (hbig1 : -(2 ^ 31) ≤ p.bigargumentcount)
    (hbig2 : p.bigargumentcount < 2 ^ 31)
    (hrem1 : -(2 ^ 31) ≤ rem) (hrem2 : rem < 2 ^ 31)
    (hlen : (p.cls.pack_data p.args).2.length < 2 ^ 31)
    (hinv : p.cls.unpack_data (p.cls.pack_data p.args).1
        (paddedOf (p.cls.pack_data p.args).2) = p.args) :
    Part.unpack_from reg (p.pack rem) 1
      = Except.ok [{ cls := p.cls, attrib := p.attrib, bigargumentcount := 0,
                     args := p.args, source := Source.server }] := by
  have hph := parsePartHeader_pack p rem hkind1 hkind2 hattr1 hattr2 hcnt1
    hcnt2 hbig1 hbig2 hrem1 hrem2 hlen
  have h1 : (1 : Int).toNat = 1 := rfl
  have hlen16 : ¬(((p.pack rem).take 16).length ≠ 16) := by
    rw [List.length_take, Part.pack_split16, List.length_append,
      Part.pack_header_length]
    omega
  have hsz : (if ((((p.cls.pack_data p.args).2.length : Nat) : Int)) % 8 ≠ 0
        then (((p.cls.pack_data p.args).2.length : Nat) : Int) + 8 -
          (((p.cls.pack_data p.args).2.length : Nat) : Int) % 8
        else (((p.cls.pack_data p.args).2.length : Nat) : Int))
      = ((paddedOf (p.cls.pack_data p.args).2).length : Int) := by
    rw [paddedOf_length]
    by_cases h : (p.cls.pack_data p.args).2.length % 8 = 0
    · rw [if_neg (by omega), if_neg (by omega)]
    · rw [if_pos (by omega), if_pos (by omega)]
      push_cast
      omega
  rw [Part.unpack_from, h1]
  simp only [Part.unpackLoop, hlen16, if_false, hph, Part.pack_drop16, hsz,
    readBytes_all _ _ rfl, hreg, hinv]

/-- C5 (witness): the round trip evaluated on the example part under
the demo registry. -/
theorem C5_part_roundtrip_witness :
    demoReg examplePart.cls.kind = some examplePart.cls ∧
    examplePart.cls.unpack_data (examplePart.cls.pack_data examplePart.args).1
        (paddedOf (examplePart.cls.pack_data examplePart.args).2)
      = examplePart.args ∧
    Part.unpack_from demoReg (examplePart.pack 13) 1
      = Except.ok [{ cls := examplePart.cls, attrib := examplePart.attrib,
                     bigargumentcount := 0, args := examplePart.args,
                     source := Source.server }] :=
  ⟨rfl, rfl,
   C5_part_roundtrip demoReg examplePart 13 rfl (by decide) (by decide)
     (by decide) (by decide) (by decide) (by decide) (by decide) (by decide)
     (by decide) (by decide) (by decide) rfl⟩

/-- C6 (confirmed, spec-modelled constants): for *every* decoded
segment of kind 5 (Error) whose parts decode — at any loop position, for
any declared segment count, including the single-segment `read(-1)`
workaround mode (`expected_segments = 1`) — the decoder inspects the
first part: if its kind is the rows-affected kind the loop raises a
rows-affected condition carrying that part's values; if its kind is the
error kind it raises the part's first error value directly.  The
segment is quantified via its successful `readSegmentBlock`, the
header- and payload-reading prelude every loop iteration performs. -/
theorem C6_error_segment_dispatch (reg : Registry) (expected : Int)
    (n : Nat) (s : List Nat) (hdr : SegHeader) (pl rest : List Nat)
    (hread : readSegmentBlock expected s = Except.ok (hdr, pl, rest))
    (hkind : hdr.segment_kind = 5)
    (p0 : Part) (ps : List Part)
    (hparts : Part.unpack_from reg pl hdr.part_count = Except.ok (p0 :: ps)) :
    (p0.kind = part_kinds.ROWSAFFECTED →
       ReplySegment.unpackLoop reg expected (n + 1) s
         = Except.error (PyErr.rowsAffected p0.args)) ∧
    (p0.kind = part_kinds.ERROR → ∀ e es, p0.args = e :: es →
       ReplySegment.unpackLoop reg expected (n + 1) s
         = Except.error (PyErr.serverError e)) := by
  have hk2 : ¬(hdr.segment_kind = 2) := by
    rw [hkind]
    norm_num
  constructor
  · intro hra
    simp only [ReplySegment.unpackLoop, hread, ReplySegment.unpack, hparts,
      if_neg hk2, if_pos hkind, if_pos hra]
  · intro herr e es hargs
    have hra : ¬(p0.kind = part_kinds.ROWSAFFECTED) := by
      rw [herr]
      decide
    simp only [ReplySegment.unpackLoop, hread, ReplySegment.unpack, hparts,
      if_neg hk2, if_pos hkind, if_neg hra, if_pos herr, hargs]

/-- C6 (witness): a single-segment reply (`expected_segments = 1`, the
`read(-1)` workaround path) carrying an error segment whose only part
is of the rows-affected kind; the header even lies about its length
(declared 0), yet the dispatch raises the rows-affected condition with
the part's decoded values. -/
def c6block : List Nat :=
  encInt 4 0 ++ encInt 4 0 ++ encInt 2 1 ++ encInt 2 1 ++ encInt 1 5 ++
    (encInt 1 0 ++ encInt 2 0 ++ List.replicate 8 0) ++
    (encInt 1 part_kinds.ROWSAFFECTED ++ encInt 1 0 ++ encInt 2 0 ++
     encInt 4 0 ++ encInt 4 0 ++ encInt 4 0)

theorem C6_error_segment_dispatch_witness :
    readSegmentBlock 1 c6block
      = Except.ok (parseSegHeaderBytes c6block, c6block.drop 24, []) ∧
    (parseSegHeaderBytes c6block).segment_kind = 5 ∧
    ReplySegment.unpack_from demoReg c6block 1
      = Except.error (PyErr.rowsAffected [7]) := by
  have hread : readSegmentBlock 1 c6block
      = Except.ok (parseSegHeaderBytes c6block, c6block.drop 24, []) := rfl
  have hparts : Part.unpack_from demoReg (c6block.drop 24)
      (parseSegHeaderBytes c6block).part_count
      = Except.ok [{ cls := rowsAffectedCls, attrib := 0,
                     bigargumentcount := 0, args := [7],
                     source := Source.server }] := rfl
  exact ⟨hread, by decide,
    (C6_error_segment_dispatch demoReg 1 0 c6block
      (parseSegHeaderBytes c6block) (c6block.drop 24) [] hread (by decide)
      _ [] hparts).1 rfl⟩

/-- C7 (confirmed): a part header whose kind code is not registered
makes `Part.unpack_from` fail with an unknown-part-kind condition and
produce no part. -/
theorem C7_unknown_part_kind (reg : Registry) (s : List Nat) (m : Int)
    (hm : 0 < m) (hlen : 16 ≤ s.length)
    (hreg : reg (parsePartHeaderBytes s).kind = none) :
    Part.unpack_from reg s m
      = Except.error (PyErr.unknownPartKind (parsePartHeaderBytes s).kind) := by
  obtain ⟨k, hk⟩ : ∃ k, m.toNat = k + 1 := ⟨m.toNat - 1, by omega⟩
  rw [Part.unpack_from, hk]
  have h16 : ¬((s.take 16).length ≠ 16) := by
    rw [List.length_take]
    omega
  simp only [Part.unpackLoop, h16, if_false, hreg]

/-- C7 (witness): 16 zero bytes under the empty registry fail with
kind 0 unknown. -/
theorem C7_unknown_part_kind_witness :
    (0 < (1 : Int)) ∧ (16 ≤ (List.replicate 16 0).length) ∧
    ((fun _ => none : Registry)
        (parsePartHeaderBytes (List.replicate 16 0)).kind = none) ∧
    Part.unpack_from (fun _ => none) (List.replicate 16 0) 1
      = Except.error (PyErr.unknownPartKind
          (parsePartHeaderBytes (List.replicate 16 0)).kind) :=
  ⟨by norm_num, by decide, rfl,
   C7_unknown_part_kind (fun _ => none) (List.replicate 16 0) 1 (by norm_num)
     (by decide) rfl⟩

/-- C10 (confirmed): for *every* decoded segment of kind 5 whose first
part's kind is neither the rows-affected kind nor the error kind — at
any loop position and for any declared segment count, the
single-segment `read(-1)` workaround mode (`expected_segments = 1`)
included — both arms of the dispatch fall through: nothing is yielded,
nothing is raised, and the loop simply continues with however many
segments remain on the remaining stream.  The segment is quantified via
its successful `readSegmentBlock`, the header- and payload-reading
prelude every loop iteration performs. -/
theorem C10_neutral_error_segment_skipped (reg : Registry) (expected : Int)
    (n : Nat) (s : List Nat) (hdr : SegHeader) (pl rest : List Nat)
    (hread : readSegmentBlock expected s = Except.ok (hdr, pl, rest))
    (hkind : hdr.segment_kind = 5)
    (p0 : Part) (ps : List Part)
    (hparts : Part.unpack_from reg pl hdr.part_count = Except.ok (p0 :: ps))
    (hra : p0.kind ≠ part_kinds.ROWSAFFECTED)
    (herr : p0.kind ≠ part_kinds.ERROR) :
    ReplySegment.unpackLoop reg expected (n + 1) s
      = ReplySegment.unpackLoop reg expected n rest := by
  have hk2 : ¬(hdr.segment_kind = 2) := by
    rw [hkind]
    norm_num
  simp only [ReplySegment.unpackLoop, hread, ReplySegment.unpack, hparts,
    if_neg hk2, if_pos hkind, if_neg hra, if_neg herr]

/-- C10 (witness): a single-segment reply (`expected_segments = 1`, the
`read(-1)` workaround path) that is one kind-5 segment whose only part
is of the neutral kind 3: it is silently skipped — the loop continues
on the (empty) remainder and the whole decode returns no segments and
no error. -/
def c10block : List Nat :=
  encInt 4 0 ++ encInt 4 0 ++ encInt 2 1 ++ encInt 2 1 ++ encInt 1 5 ++
    (encInt 1 0 ++ encInt 2 0 ++ List.replicate 8 0) ++
    (encInt 1 3 ++ encInt 1 0 ++ encInt 2 0 ++
     encInt 4 0 ++ encInt 4 0 ++ encInt 4 0)

theorem C10_neutral_error_segment_skipped_witness :
    readSegmentBlock 1 c10block
      = Except.ok (parseSegHeaderBytes c10block, c10block.drop 24, []) ∧
    (parseSegHeaderBytes c10block).segment_kind = 5 ∧
    ReplySegment.unpackLoop demoReg 1 1 c10block
      = ReplySegment.unpackLoop demoReg 1 0 [] ∧
    ReplySegment.unpack_from demoReg c10block 1 = Except.ok ([], []) := by
  have hread : readSegmentBlock 1 c10block
      = Except.ok (parseSegHeaderBytes c10block, c10block.drop 24, []) := rfl
  have hparts : Part.unpack_from demoReg (c10block.drop 24)
      (parseSegHeaderBytes c10block).part_count
      = Except.ok [{ cls := byteCls, attrib := 0, bigargumentcount := 0,
                     args := [], source := Source.server }] := rfl
  have h := C10_neutral_error_segment_skipped demoReg 1 0 c10block
    (parseSegHeaderBytes c10block) (c10block.drop 24) [] hread (by decide)
    _ [] hparts (by decide) (by decide)
  exact ⟨hread, by decide, h, h.trans rfl⟩

/-! ## Registration (C8) and message size (C9) -/

/-- Two distinct part classes declaring the same kind code 5; they are
told apart by what their decoders return. -/
def dupClsA : PartClass :=
  { kind := 5, pack_data := fun _ => (0, []), unpack_data := fun _ _ => [1] }

/-- See `dupClsA`. -/
def dupClsB : PartClass :=
  { kind := 5, pack_data := fun _ => (0, []), unpack_data := fun _ _ => [2] }

/-- A part class with a kind outside [-128, 127]. -/
def bigKindCls : PartClass :=
  { kind := 200, pack_data := fun _ => (0, []), unpack_data := fun _ _ => [] }

/-- The empty registry. -/
def emptyReg : Registry := fun _ => none

/-- A registry already holding `dupClsA` under kind 5. -/
def regWithA : Registry := part_mapping_insert emptyReg dupClsA

/-- Observe which class a (possibly failed) registration left under a
kind, by what its decoder returns. -/
def registryProbe (r : Except PyErr Registry) (k : Int) : Option (List Int) :=
  match r with
  | Except.error _ => none
  | Except.ok m => (m k).map (fun c => c.unpack_data 0 [])

/-- C8 (counterexample): the claim says a *duplicate* kind fails at
registration time, but `PartMeta.__new__` performs no duplicate check:
registering a second class under the already-taken kind 5 succeeds and
silently overwrites the registry entry (the probe now answers with the
second class's decoder). -/
theorem C8_duplicate_registration_counterexample :
    (PartMeta.register regWithA dupClsB).isOk = true ∧
    registryProbe (PartMeta.register regWithA dupClsB) 5 = some [2] ∧
    registryProbe (Except.ok regWithA) 5 = some [1] :=
  ⟨rfl, rfl, rfl⟩

/-- C8 (amended): registering a part class whose (nonzero) kind lies
outside [-128, 127] fails with a fatal condition at registration time,
before any I/O; a kind inside the range always succeeds — a duplicate
is *not* rejected but silently overwrites the earlier entry. -/
theorem C8_registration_range_check (m : Registry) (c : PartClass) :
    (¬(-128 ≤ c.kind ∧ c.kind ≤ 127) →
       PartMeta.register m c
         = Except.error (PyErr.partKindOutOfRange c.kind)) ∧
    (c.kind ≠ 0 → -128 ≤ c.kind → c.kind ≤ 127 →
       PartMeta.register m c = Except.ok (part_mapping_insert m c) ∧
       part_mapping_insert m c c.kind = some c) := by
  constructor
  · intro h
    have h0 : c.kind ≠ 0 := by omega
    rw [PartMeta.register, if_pos h0, if_pos h]
  · intro h0 hlo hhi
    refine ⟨?_, ?_⟩
    · rw [PartMeta.register, if_pos h0, if_neg (not_not_intro ⟨hlo, hhi⟩)]
    · simp [part_mapping_insert]

/-- C8 (witness): kind 200 is rejected; re-registering kind 5 succeeds
and the new class wins. -/
theorem C8_registration_range_check_witness :
    ¬(-128 ≤ bigKindCls.kind ∧ bigKindCls.kind ≤ 127) ∧
    PartMeta.register emptyReg bigKindCls
      = Except.error (PyErr.partKindOutOfRange bigKindCls.kind) ∧
    PartMeta.register regWithA dupClsB
      = Except.ok (part_mapping_insert regWithA dupClsB) ∧
    part_mapping_insert regWithA dupClsB dupClsB.kind = some dupClsB :=
  ⟨by decide, (C8_registration_range_check emptyReg bigKindCls).1 (by decide),
   ((C8_registration_range_check regWithA dupClsB).2 (by decide) (by decide)
     (by decide)).1,
   ((C8_registration_range_check regWithA dupClsB).2 (by decide) (by decide)
     (by decide)).2⟩

/-- A part class whose payload alone already fills the maximum message
size. -/
def hugeCls : PartClass :=
  { kind := 3, pack_data := fun _ => (0, List.replicate (2 ^ 17) 0),
    unpack_data := fun _ _ => [] }

/-- A part of `hugeCls`. -/
def hugePart : Part := { cls := hugeCls, args := [] }

/-- A demo connection. -/
def demoConn : Connection :=
  { session_id := 1, packet_count := 0, autocommit := false }

/-- C9 (counterexample): `Message.pack` enforces no size limit — a
message holding one part with a 2^17-byte payload packs to
32 + 24 + 16 + 2^17 = 131144 bytes, exceeding the maximum message size
of 2^17 = 131072 bytes. -/
theorem C9_size_counterexample :
    2 ^ 17 < (Message.pack demoConn [Seg.request 3 [hugePart]]).length := by
  have hpart : (hugePart.pack (MAX_SEGMENT_SIZE - SEGMENT_HEADER_SIZE)).length
      = 16 + 2 ^ 17 := by
    rw [Part.pack_split16, List.length_append, Part.pack_header_length]
    have hpl2 : (hugePart.cls.pack_data hugePart.args).2
        = List.replicate (2 ^ 17) 0 := rfl
    have hpl : paddedOf (hugePart.cls.pack_data hugePart.args).2
        = List.replicate (2 ^ 17) 0 := by
      rw [paddedOf, hpl2, List.length_replicate]
      norm_num
    rw [hpl, List.length_replicate]
  have hbody : (BaseSegment.build_payload [hugePart]
      (MAX_SEGMENT_SIZE - SEGMENT_HEADER_SIZE)).length = 16 + 2 ^ 17 := by
    show ((hugePart.pack (MAX_SEGMENT_SIZE - SEGMENT_HEADER_SIZE)) ++
      BaseSegment.build_payload []
        (MAX_SEGMENT_SIZE - SEGMENT_HEADER_SIZE -
          (hugePart.pack (MAX_SEGMENT_SIZE - SEGMENT_HEADER_SIZE)).length)).length
      = 16 + 2 ^ 17
    rw [List.length_append, hpart]
    rfl
  have hseg : (RequestSegment.pack 3 demoConn.autocommit [hugePart]).length
      = 24 + (16 + 2 ^ 17) := by
    rw [RequestSegment.pack, BaseSegment.pack_split_header, List.length_append, hbody]
    simp [List.length_append, encInt_length, RequestSegment.pack_additional_header]
  have hmsg : (Message.pack demoConn [Seg.request 3 [hugePart]]).length
      = 32 + (24 + (16 + 2 ^ 17)) := by
    rw [Message.pack]
    simp only [List.length_append, encInt_length, List.length_replicate]
    have : Message.build_payload demoConn.autocommit [Seg.request 3 [hugePart]]
        = RequestSegment.pack 3 demoConn.autocommit [hugePart] ++ [] := rfl
    rw [this, List.length_append, hseg]
    norm_num
  rw [hmsg]
  norm_num

/-- C9 (amended): the message header always occupies exactly 32 bytes
(the packed message is the 32-byte header followed by the segments'
bytes), and the total encoded size is 32 plus the segments' total size;
it stays within the 2^17-byte maximum exactly when the segments fit in
`2^17 - 32` bytes — `Message.pack` itself never checks the limit. -/
theorem C9_message_header_and_size (conn : Connection)
    (segments : List Seg) :
    (Message.pack conn segments).length
      = 32 + (Message.build_payload conn.autocommit segments).length ∧
    (Message.pack conn segments).drop 32
      = Message.build_payload conn.autocommit segments ∧
    ((Message.build_payload conn.autocommit segments).length ≤ 2 ^ 17 - 32 →
      (Message.pack conn segments).length ≤ 2 ^ 17) := by
  have hunfold : Message.pack conn segments
      = (encInt 8 conn.session_id ++ encInt 4 conn.packet_count ++
         encInt 4 ((Message.build_payload conn.autocommit segments).length :
           Int) ++
         encInt 4 (MAX_MESSAGE_SIZE - MESSAGE_HEADER_SIZE) ++
         encInt 2 (segments.length : Int) ++ List.replicate 10 0) ++
        Message.build_payload conn.autocommit segments := by
    rw [Message.pack]
  have hhdr : (encInt 8 conn.session_id ++ encInt 4 conn.packet_count ++
      encInt 4 ((Message.build_payload conn.autocommit segments).length :
        Int) ++
      encInt 4 (MAX_MESSAGE_SIZE - MESSAGE_HEADER_SIZE) ++
      encInt 2 (segments.length : Int) ++ List.replicate 10 0).length
      = 32 := by
    simp [List.length_append, encInt_length]
  refine ⟨?_, ?_, ?_⟩
  · rw [hunfold, List.length_append, hhdr]
  · rw [hunfold]
    exact drop_append_full _ _ 32 hhdr
  · intro h
    rw [hunfold, List.length_append, hhdr]
    omega

/-- C9 (witness): the amended statement evaluated on an empty message,
which packs to exactly the 32 header bytes and stays within bounds. -/
theorem C9_message_header_and_size_witness :
    ((Message.pack demoConn []).length
      = 32 + (Message.build_payload demoConn.autocommit []).length ∧
     (Message.pack demoConn []).drop 32
      = Message.build_payload demoConn.autocommit [] ∧
     ((Message.build_payload demoConn.autocommit []).length ≤ 2 ^ 17 - 32 →
       (Message.pack demoConn []).length ≤ 2 ^ 17)) ∧
    (Message.build_payload demoConn.autocommit []).length ≤ 2 ^ 17 - 32 ∧
    (Message.pack demoConn []).length ≤ 2 ^ 17 :=
  ⟨C9_message_header_and_size demoConn [], by decide,
   (C9_message_header_and_size demoConn []).2.2 (by decide)⟩

end PyHDB
